import Mathlib

/-!
# Shallow embedding of the simply-supported RC beam design pipeline

This file embeds the calculation steps of the `simply_beam_system`
repository (`src/steps/preliminary_sizing.py`, `src/steps/load_analysis.py`,
`src/steps/structural_analysis.py`, with `src/core/exceptions.py`,
`src/core/design_step.py` and `src/utils/validators.py`) into Lean and
proves or refutes the frozen claims about them.

Modelling conventions:
* Python floats are idealised as rationals (`ℚ`); every formula in the
  code is closed-form arithmetic, so the algebra is preserved exactly.
* A Python parameter dict with optional keys becomes a structure of
  `Option ℚ` fields; `None` is `none`, a supplied value is `some v`.
* Raising an exception becomes returning `Except.error`; the
  `try ... except Exception as e: raise DesignError(step, str(e))` wrapper
  at the top of each `design`/`verify` becomes an explicit re-wrapping of
  the inner error value, with `str(e)` modelled by `PyExn.str`.
* Human-readable `explanations` lists and the `calculation` display
  strings (pure presentation, built with `f"...{v:.2f}..."` formatting)
  are elided; every numeric field, key, inclusion condition, ordering and
  error path of the source is kept.
* Python dicts preserve insertion order; an ordered association list
  `List (String × _)` models `results["load_combinations"]`.
-/

section Embedding

attribute [local semireducible] Rat.mul Rat.add Rat.sub Rat.inv Rat.ofScientific

/-- Inner Python exceptions that can be raised inside a `design`/`verify`
body before the step-level wrapper catches them: `InputError(parameter,
message)` from `src/core/exceptions.py`, and the built-in `ValueError`
raised by `max()` on an empty sequence. -/
inductive PyExn where
  | inputError (parameter message : String)
  | valueError (message : String)
  deriving Repr, DecidableEq

/-- `str(e)` for the inner exceptions: `InputError.__init__` calls
`super().__init__(f"Invalid input parameter '{parameter}': {message}")`. -/
def PyExn.str : PyExn → String
  | .inputError p m => "Invalid input parameter \x27" ++ p ++ "\x27: " ++ m
  | .valueError m => m

/-- `DesignError(step, message)` from `src/core/exceptions.py`. -/
structure DesignError where
  step : String
  message : String
  deriving Repr, DecidableEq

/-- `VerificationError(step, message)` from `src/core/exceptions.py`. -/
structure VerificationError where
  step : String
  message : String
  deriving Repr, DecidableEq

/-- `validate_numeric_positive` from `src/utils/validators.py`: a value
that is present must be positive (the `isinstance` numeric check is
subsumed by the `ℚ` type). -/
def validate_numeric_positive (value : ℚ) (param_name : String) :
    Except PyExn Unit :=
  if value ≤ 0 then .error (.inputError param_name "Must be positive")
  else .ok ()

/-- Return shape of the placeholder `check_requirements` methods. -/
structure ReqCheck where
  passed : Bool
  message : String
  deriving Repr, DecidableEq

/-- Return shape of the placeholder `verify` methods of `LoadAnalysis`
and `StructuralAnalysis`. -/
structure NotImplemented where
  status : String
  message : String
  deriving Repr, DecidableEq

/-- Decidable equality of call outcomes, used to evaluate the embedded
steps at concrete inputs. -/
instance {e a : Type} [DecidableEq e] [DecidableEq a] :
    DecidableEq (Except e a) := fun x y =>
  match x, y with
  | .ok u, .ok v =>
    if h : u = v then isTrue (by rw [h])
    else isFalse (by intro hc; cases hc; exact h rfl)
  | .error u, .error v =>
    if h : u = v then isTrue (by rw [h])
    else isFalse (by intro hc; cases hc; exact h rfl)
  | .ok _, .error _ => isFalse (by intro hc; cases hc)
  | .error _, .ok _ => isFalse (by intro hc; cases hc)

namespace PreliminarySizing

/-- `PreliminarySizing._round_to_even`: `ceil`, then add 1 if odd. -/
def round_to_even (value : ℚ) : ℤ :=
  let rounded := ⌈value⌉
  if rounded % 2 = 0 then rounded else rounded + 1

/-- `min_depth_factor = 1/16` set in `PreliminarySizing.__init__`. -/
def min_depth_factor : ℚ := 1 / 16

/-- Numeric content of `_calculate_min_depth`. -/
structure DepthCalc where
  calculated : ℚ
  rounded : ℤ
  deriving Repr, DecidableEq

/-- `PreliminarySizing._calculate_min_depth`. -/
def calculate_min_depth (span : ℚ) : DepthCalc :=
  let min_h := span * min_depth_factor
  { calculated := min_h, rounded := round_to_even min_h }

/-- Numeric content of `_calculate_width`. -/
structure WidthCalc where
  min : ℚ
  max : ℚ
  recommended : ℤ
  deriving Repr, DecidableEq

/-- `PreliminarySizing._calculate_width`: band `[h/2, 2h/3]`, midpoint
rounded to even, then `min(max(rounded_b, rte(min_b)), rte(max_b))`. -/
def calculate_width (depth : ℚ) : WidthCalc :=
  let min_b := depth / 2
  let max_b := 2 * depth / 3
  let ideal_b := (min_b + max_b) / 2
  let rounded_b := round_to_even ideal_b
  let final_b := min (max rounded_b (round_to_even min_b))
      (round_to_even max_b)
  { min := min_b, max := max_b, recommended := final_b }

/-- `final_dimensions` of the design results (units: inches). -/
structure FinalDimensions where
  depth : ℤ
  width : ℤ
  deriving Repr, DecidableEq

/-- Results of `PreliminarySizing.design` (explanation strings elided). -/
structure Results where
  input_span : ℚ
  depth_calc : DepthCalc
  width_calc : WidthCalc
  final_dimensions : FinalDimensions
  deriving Repr, DecidableEq

/-- Design-mode parameter dict: the single key `span_length`, `none`
modelling an omitted key. -/
structure Params where
  span_length : Option ℚ
  deriving Repr, DecidableEq

/-- `PreliminarySizing._validate_design_inputs`. -/
def validate_design_inputs (p : Params) : Except PyExn ℚ :=
  match p.span_length with
  | none => .error (.inputError "span_length" "Required for design mode")
  | some v => do
      validate_numeric_positive v "span_length"
      .ok v

/-- Body of `PreliminarySizing.design` before the exception wrapper. -/
def design_core (p : Params) : Except PyExn Results := do
  let span_length ← validate_design_inputs p
  let min_depth := calculate_min_depth span_length
  let design_depth := min_depth.rounded
  let width_data := calculate_width (design_depth : ℚ)
  .ok { input_span := span_length
        depth_calc := min_depth
        width_calc := width_data
        final_dimensions :=
          { depth := design_depth, width := width_data.recommended } }

/-- `PreliminarySizing.design`: any inner exception is re-raised as
`DesignError(self.step_name, str(e))`. -/
def design (p : Params) : Except DesignError Results :=
  match design_core p with
  | .ok r => .ok r
  | .error e => .error ⟨"preliminary_sizing", e.str⟩

/-- Verify-mode parameter dict of `PreliminarySizing.verify`. -/
structure VerifyParams where
  span_length : Option ℚ
  depth : Option ℚ
  width : Option ℚ
  deriving Repr, DecidableEq

/-- One entry of `results["checks"]` (explanation string elided). -/
structure Check where
  status : String
  passed : Bool
  deriving Repr, DecidableEq

/-- Results of `PreliminarySizing.verify`. -/
structure VerifyResults where
  provided_depth : ℚ
  provided_width : ℚ
  depth_check : Check
  width_check : Check
  overall_passed : Bool
  deriving Repr, DecidableEq

/-- `PreliminarySizing._validate_verification_inputs`: requires
`span_length`, `depth`, `width` in that order, each positive. -/
def validate_verification_inputs (p : VerifyParams) :
    Except PyExn (ℚ × ℚ × ℚ) := do
  let check : Option ℚ → String → Except PyExn ℚ := fun v name =>
    match v with
    | none => .error (.inputError name "Required for verification")
    | some x => do
        validate_numeric_positive x name
        .ok x
  let span ← check p.span_length "span_length"
  let h ← check p.depth "depth"
  let b ← check p.width "width"
  .ok (span, h, b)

/-- Body of `PreliminarySizing.verify` before the exception wrapper. -/
def verify_core (p : VerifyParams) : Except PyExn VerifyResults := do
  let (span, h, b) ← validate_verification_inputs p
  let min_h := span * min_depth_factor
  let h_check := min_h ≤ h
  let min_b := h / 2
  let max_b := 2 * h / 3
  let b_check := min_b ≤ b ∧ b ≤ max_b
  .ok { provided_depth := h
        provided_width := b
        depth_check := { status := if h_check then "PASS" else "FAIL",
                         passed := decide h_check }
        width_check := { status := if b_check then "PASS" else "FAIL",
                         passed := decide b_check }
        overall_passed := decide (h_check ∧ b_check) }

/-- `PreliminarySizing.verify`: inner exceptions re-raised as
`VerificationError(self.step_name, str(e))`. -/
def verify (p : VerifyParams) : Except VerificationError VerifyResults :=
  match verify_core p with
  | .ok r => .ok r
  | .error e => .error ⟨"preliminary_sizing", e.str⟩

/-- `PreliminarySizing.check_requirements`: placeholder, never raises. -/
def check_requirements (_ : Results) : ReqCheck :=
  { passed := true, message := "Requirements check not implemented" }

end PreliminarySizing

namespace LoadAnalysis

/-- Python truthiness of an optional numeric value: `None` and `0` are
falsy, every other number is truthy. -/
def truthy (x : Option ℚ) : Bool :=
  match x with
  | some v => v != 0
  | none => false

/-- `filter(None, xs)` over a list of optional loads: keeps exactly the
truthy entries (drops `None` and zero values). -/
def filter_truthy (l : List (Option ℚ)) : List ℚ :=
  l.filterMap fun x =>
    match x with
    | some v => if v ≠ 0 then some v else none
    | none => none

/-- `any([...])` over optional loads (Python truthiness). -/
def py_any (l : List (Option ℚ)) : Bool := l.any truthy

/-- `max(xs, default=d)`: the default when the pool is empty. -/
def py_max_default (l : List ℚ) (d : ℚ) : ℚ :=
  match l with
  | [] => d
  | x :: xs => xs.foldl max x

/-- `max(xs)` with no default: `ValueError` on an empty pool. -/
def py_max : List ℚ → Except PyExn ℚ
  | [] => .error (.valueError "max() arg is an empty sequence")
  | x :: xs => .ok (xs.foldl max x)

/-- `x or 0` on an optional load: the value when truthy, else `0`. -/
def py_or_zero (x : Option ℚ) : ℚ :=
  match x with
  | some v => if v ≠ 0 then v else 0
  | none => 0

/-- `0.5*W if W else None` in the U3 block. -/
def half_if_truthy (W : Option ℚ) : Option ℚ :=
  match W with
  | some w => if w ≠ 0 then some (0.5 * w) else none
  | none => none

/-- Parameter dict of `LoadAnalysis.design`: `dead_load` required, the
six other loads optional (`none` = key absent). -/
structure Params where
  dead_load : Option ℚ
  live_load : Option ℚ := none
  roof_live_load : Option ℚ := none
  snow_load : Option ℚ := none
  rain_load : Option ℚ := none
  wind_load : Option ℚ := none
  seismic_load : Option ℚ := none
  deriving Repr, DecidableEq

/-- One entry of `results["load_combinations"]` (the `calculation`
display string is elided, see the file header). -/
structure Combo where
  name : String
  formula : String
  value : ℚ
  units : String
  deriving Repr, DecidableEq

/-- `results["controlling_load"]` when set. -/
structure Controlling where
  combination : String
  value : ℚ
  units : String
  deriving Repr, DecidableEq

/-- Results of `LoadAnalysis.design`. `load_combinations` is an ordered
association list mirroring the insertion-ordered Python dict; `inputs`
keeps the full parameter record (the source echoes the non-`None`
entries of the same dict). -/
structure Results where
  inputs : Params
  load_combinations : List (String × Combo)
  controlling_load : Option Controlling
  deriving Repr, DecidableEq

/-- `LoadAnalysis._validate_inputs`. -/
def validate_inputs (p : Params) : Except PyExn ℚ :=
  match p.dead_load with
  | none => .error (.inputError "dead_load" "Required for load analysis")
  | some d => do
      validate_numeric_positive d "dead_load"
      .ok d

/-- The loop body of `_set_controlling_load`: first dict entry (in
insertion order) whose value equals the maximum wins. -/
def find_first_max (max_load : ℚ) : List (String × Combo) → Option Controlling
  | [] => none
  | (key, combo) :: rest =>
      if combo.value = max_load then some ⟨key, max_load, "kip/ft"⟩
      else find_first_max max_load rest

/-- `LoadAnalysis._set_controlling_load`: nothing is set when no
combination was computed; otherwise scan for the first entry that
attains `max(combinations)`.  The Python `combinations` list holds the
values of the dict entries in the same insertion order. -/
def set_controlling_load (combos : List (String × Combo)) : Option Controlling :=
  match combos.map fun kc => kc.2.value with
  | [] => none
  | v :: vs => find_first_max (vs.foldl max v) combos

/-- The seven conditional `_add_combination` blocks of
`LoadAnalysis.design`, in source order.  Each block contributes its
entry only under the source's inclusion condition (`is not None` for
U2/U4/U5/U6/U7, truthiness `any([Lr, S, R])` for U3); the U3 block can
raise `ValueError` through the defaultless `max`. -/
def build_combinations (D : ℚ) (L Lr S R W E : Option ℚ) :
    Except PyExn (List (String × Combo)) := do
  let u1 : List (String × Combo) :=
    [("U1", { name := "Dead Load Only (ACI 318-19 Eq. 5.3.1a)",
              formula := "1.4D", value := 1.4 * D, units := "kip/ft" })]
  let u2 : List (String × Combo) :=
    match L with
    | some l =>
        let add_load := py_max_default (filter_truthy [Lr, S, R]) 0
        [("U2", { name := "Basic Load Combination (ACI 318-19 Eq. 5.3.1b)",
                  formula := "1.2D + 1.6L + 0.5(Lr/S/R)",
                  value := 1.2 * D + 1.6 * l + 0.5 * add_load,
                  units := "kip/ft" })]
    | none => []
  let u3 ← if py_any [Lr, S, R] then do
      let primary ← py_max (filter_truthy [Lr, S, R])
      let secondary ← py_max (filter_truthy [L, half_if_truthy W])
      pure [("U3", { name := "Roof/Snow/Rain Combination (ACI 318-19 Eq. 5.3.1c)",
                     formula := "1.2D + 1.6(Lr/S/R) + (L or 0.5W)",
                     value := 1.2 * D + 1.6 * primary + secondary,
                     units := "kip/ft" })]
    else pure ([] : List (String × Combo))
  let u4 : List (String × Combo) :=
    match W with
    | some w =>
        let add_load := py_max_default (filter_truthy [Lr, S, R]) 0
        [("U4", { name := "Wind Load Combination (ACI 318-19 Eq. 5.3.1d)",
                  formula := "1.2D + 1.0W + L + 0.5(Lr/S/R)",
                  value := 1.2 * D + 1.0 * w + py_or_zero L + 0.5 * add_load,
                  units := "kip/ft" })]
    | none => []
  let u5 : List (String × Combo) :=
    match E with
    | some e =>
        [("U5", { name := "Seismic Load Combination (ACI 318-19 Eq. 5.3.1e)",
                  formula := "1.2D + 1.0E + L + 0.2S",
                  value := 1.2 * D + 1.0 * e + py_or_zero L + 0.2 * py_or_zero S,
                  units := "kip/ft" })]
    | none => []
  let u6 : List (String × Combo) :=
    match W with
    | some w =>
        [("U6", { name := "Wind Uplift (ACI 318-19 Eq. 5.3.1f)",
                  formula := "0.9D + 1.0W", value := 0.9 * D + 1.0 * w,
                  units := "kip/ft" })]
    | none => []
  let u7 : List (String × Combo) :=
    match E with
    | some e =>
        [("U7", { name := "Seismic Uplift (ACI 318-19 Eq. 5.3.1g)",
                  formula := "0.9D + 1.0E", value := 0.9 * D + 1.0 * e,
                  units := "kip/ft" })]
    | none => []
  pure (u1 ++ u2 ++ u3 ++ u4 ++ u5 ++ u6 ++ u7)

/-- Body of `LoadAnalysis.design` before the exception wrapper. -/
def design_core (p : Params) : Except PyExn Results := do
  let D ← validate_inputs p
  let combos ← build_combinations D p.live_load p.roof_live_load
    p.snow_load p.rain_load p.wind_load p.seismic_load
  pure { inputs := p
         load_combinations := combos
         controlling_load := set_controlling_load combos }

/-- `LoadAnalysis.design`: inner exceptions re-raised as
`DesignError(self.step_name, str(e))`. -/
def design (p : Params) : Except DesignError Results :=
  match design_core p with
  | .ok r => .ok r
  | .error e => .error ⟨"load_analysis", e.str⟩

/-- `LoadAnalysis.verify`: placeholder, ignores its input, never
raises. -/
def verify (_ : Params) : NotImplemented :=
  { status := "not_implemented",
    message := "Verification not required for load analysis" }

/-- `LoadAnalysis.check_requirements`: placeholder, never raises. -/
def check_requirements (_ : Results) : ReqCheck :=
  { passed := true,
    message := "Requirements checking not implemented for load analysis" }

end LoadAnalysis

namespace StructuralAnalysis

/-- Parameter dict of `StructuralAnalysis.design`: `span_length` and
`factored_load` required, `num_points` optional (`none` = key absent;
the `isinstance(..., int)` validation is subsumed by `ℕ`). -/
structure Params where
  span_length : Option ℚ
  factored_load : Option ℚ
  num_points : Option ℕ := none
  deriving Repr, DecidableEq

/-- `StructuralAnalysis._validate_inputs`: presence and positivity of
`span_length` then `factored_load`; `num_points`, when supplied, must be
at least 2. -/
def validate_inputs (p : Params) : Except PyExn (ℚ × ℚ) := do
  let span ← match p.span_length with
    | none => .error (.inputError "span_length" "Required for structural analysis")
    | some v => do
        validate_numeric_positive v "span_length"
        pure v
  let wu ← match p.factored_load with
    | none => .error (.inputError "factored_load" "Required for structural analysis")
    | some v => do
        validate_numeric_positive v "factored_load"
        pure v
  match p.num_points with
  | some n =>
      if n < 2 then .error (.inputError "num_points" "Must be integer ≥ 2")
      else pure (span, wu)
  | none => pure (span, wu)

/-- Python `round(x, 2)`: round to two decimal places, ties to the even
hundredth (idealised over `ℚ`). -/
def py_round2 (x : ℚ) : ℚ :=
  let y := x * 100
  let f := ⌊y⌋
  let r := y - f
  if r < 1 / 2 then f / 100
  else if 1 / 2 < r then (f + 1) / 100
  else (if f % 2 = 0 then f else f + 1) / 100

/-- `_calculate_reactions` (display strings elided). -/
structure Reactions where
  Ra : ℚ
  Rb : ℚ
  units : String
  deriving Repr, DecidableEq

/-- `StructuralAnalysis._calculate_reactions`: `R = wu*L/2` at both
supports. -/
def calculate_reactions (wu L : ℚ) : Reactions :=
  let reaction := wu * L / 2
  { Ra := reaction, Rb := reaction, units := "kip" }

/-- One entry of `_calculate_max_values` (display strings elided). -/
structure MaxValue where
  value : ℚ
  location : String
  units : String
  deriving Repr, DecidableEq

/-- `results["maximum_values"]`. -/
structure MaxValues where
  shear : MaxValue
  moment : MaxValue
  deriving Repr, DecidableEq

/-- `StructuralAnalysis._calculate_max_values`: `Vmax = wu*L/2`,
`Mmax = wu*L²/8`. -/
def calculate_max_values (wu L : ℚ) : MaxValues :=
  { shear := { value := wu * L / 2, location := "at supports", units := "kip" }
    moment := { value := wu * L ^ 2 / 8, location := "midspan", units := "kip-ft" } }

/-- `results["diagrams"]`: three parallel series, each value rounded to
two decimals. -/
structure Diagrams where
  x_coordinates : List ℚ
  shear_values : List ℚ
  moment_values : List ℚ
  deriving Repr, DecidableEq

/-- `StructuralAnalysis._generate_diagrams`: `num_points` equally spaced
stations over `[0, L]`, `shear(x) = wu*(L/2 - x)`,
`moment(x) = wu*x*(L-x)/2`, every series rounded entrywise. -/
def generate_diagrams (wu L : ℚ) (num_points : ℕ) : Diagrams :=
  let x_coords := (List.range num_points).map fun i =>
    (i : ℚ) * (L / ((num_points : ℚ) - 1))
  let shear := x_coords.map fun x => wu * (L / 2 - x)
  let moment := x_coords.map fun x => wu * x * (L - x) / 2
  { x_coordinates := x_coords.map py_round2
    shear_values := shear.map py_round2
    moment_values := moment.map py_round2 }

/-- `results["inputs"]` as built by `_initialize_results`; note the
source echoes `params.get("num_points", 21)` here. -/
structure Inputs where
  span_length : ℚ
  factored_load : ℚ
  num_points : ℕ
  deriving Repr, DecidableEq

/-- Results of `StructuralAnalysis.design`. -/
structure Results where
  inputs : Inputs
  reactions : Reactions
  maximum_values : MaxValues
  diagrams : Diagrams
  deriving Repr, DecidableEq

/-- Body of `StructuralAnalysis.design` before the exception wrapper.
The `inputs` echo uses default `21` (`_initialize_results`, line 88 of
the source) while the diagrams use `num_points = params.get("num_points",
10)` (line 34 of the source). -/
def design_core (p : Params) : Except PyExn Results := do
  let (L, wu) ← validate_inputs p
  let num_points := p.num_points.getD 10
  pure { inputs := { span_length := L, factored_load := wu,
                     num_points := p.num_points.getD 21 }
         reactions := calculate_reactions wu L
         maximum_values := calculate_max_values wu L
         diagrams := generate_diagrams wu L num_points }

/-- `StructuralAnalysis.design`: inner exceptions re-raised as
`DesignError(self.step_name, str(e))`. -/
def design (p : Params) : Except DesignError Results :=
  match design_core p with
  | .ok r => .ok r
  | .error e => .error ⟨"structural_analysis", e.str⟩

/-- `StructuralAnalysis.verify`: placeholder, ignores its input, never
raises. -/
def verify (_ : Params) : NotImplemented :=
  { status := "not_implemented",
    message := "Verification not required for structural analysis" }

/-- `StructuralAnalysis.check_requirements`: placeholder, never
raises. -/
def check_requirements (_ : Results) : ReqCheck :=
  { passed := true,
    message := "Requirements checking not implemented for structural analysis" }

end StructuralAnalysis

/-- The spec's rounding rule, stated in its own words for the refinement
claim about the width selection: take the ceiling of the value; if the
ceiling is odd, add 1. -/
def spec_round_up_even (q : ℚ) : ℤ :=
  if Odd ⌈q⌉ then ⌈q⌉ + 1 else ⌈q⌉

/-- The spec's width-selection rule, stated in its own words: with `h`
the rounded design depth, `min_b = h/2` and `max_b = 2h/3`, round the
midpoint of the band up to the nearest even integer and clamp it into
`[round_up_even(min_b), round_up_even(max_b)]`. -/
def spec_width (h : ℤ) : ℤ :=
  let min_b : ℚ := (h : ℚ) / 2
  let max_b : ℚ := 2 * (h : ℚ) / 3
  let ideal : ℚ := (min_b + max_b) / 2
  max (spec_round_up_even min_b)
    (min (spec_round_up_even ideal) (spec_round_up_even max_b))

namespace PreliminarySizing

theorem le_round_to_even (q : ℚ) : q ≤ (round_to_even q : ℚ) := by
  unfold round_to_even
  dsimp only
  split_ifs with h
  · exact Int.le_ceil q
  · refine le_trans (Int.le_ceil q) ?_
    push_cast
    linarith

theorem even_round_to_even (q : ℚ) : Even (round_to_even q) := by
  unfold round_to_even
  dsimp only
  split_ifs with h
  · exact Int.even_iff.mpr h
  · refine Int.even_iff.mpr ?_
    omega

theorem round_to_even_mono {p q : ℚ} (h : p ≤ q) :
    round_to_even p ≤ round_to_even q := by
  unfold round_to_even
  dsimp only
  have hc : ⌈p⌉ ≤ ⌈q⌉ := Int.ceil_mono h
  split_ifs with h1 h2 <;> omega

theorem round_to_even_pos {q : ℚ} (h : 0 < q) : 0 < round_to_even q := by
  unfold round_to_even
  dsimp only
  have hc : 0 < ⌈q⌉ := Int.ceil_pos.mpr h
  split_ifs <;> omega

theorem even_min {a b : ℤ} (ha : Even a) (hb : Even b) : Even (min a b) := by
  rw [min_def]
  split_ifs <;> assumption

theorem even_max {a b : ℤ} (ha : Even a) (hb : Even b) : Even (max a b) := by
  rw [max_def]
  split_ifs <;> assumption

/-- On a positive span the validation passes and `design` returns the
record assembled from `_calculate_min_depth` and `_calculate_width`. -/
theorem design_eq_ok {span : ℚ} (h : 0 < span) :
    design ⟨some span⟩ = .ok
      { input_span := span
        depth_calc := calculate_min_depth span
        width_calc := calculate_width ((calculate_min_depth span).rounded : ℚ)
        final_dimensions :=
          { depth := (calculate_min_depth span).rounded
            width := (calculate_width
              ((calculate_min_depth span).rounded : ℚ)).recommended } } := by
  unfold design design_core validate_design_inputs validate_numeric_positive
  simp [not_le.mpr h, Bind.bind, Except.bind]

end PreliminarySizing

namespace LoadAnalysis

theorem foldl_max_le_self (x : ℚ) (xs : List ℚ) : x ≤ xs.foldl max x := by
  induction xs generalizing x with
  | nil => simp
  | cons y ys ih =>
    simp only [List.foldl_cons]
    exact le_trans (le_max_left x y) (ih (max x y))

theorem le_foldl_max {y : ℚ} (x : ℚ) (xs : List ℚ) (hy : y ∈ xs) :
    y ≤ xs.foldl max x := by
  induction xs generalizing x with
  | nil => cases hy
  | cons z zs ih =>
    simp only [List.foldl_cons]
    rcases List.mem_cons.mp hy with rfl | hz
    · exact le_trans (le_max_right x y) (foldl_max_le_self _ _)
    · exact ih (max x z) hz

theorem foldl_max_mem (x : ℚ) (xs : List ℚ) :
    xs.foldl max x = x ∨ xs.foldl max x ∈ xs := by
  induction xs generalizing x with
  | nil => left; rfl
  | cons z zs ih =>
    simp only [List.foldl_cons]
    rcases ih (max x z) with h | h
    · rcases max_choice x z with hc | hc
      · left; rw [h, hc]
      · right
        rw [h, hc]
        exact List.mem_cons_self _ _
    · right; right; exact h

theorem find_first_max_spec (m : ℚ) :
    ∀ l : List (String × Combo), (∃ kc ∈ l, kc.2.value = m) →
    ∃ i : Fin l.length,
      find_first_max m l = some ⟨(l.get i).1, m, "kip/ft"⟩ ∧
      (l.get i).2.value = m ∧
      ∀ j : Fin l.length, (j : ℕ) < (i : ℕ) → (l.get j).2.value ≠ m
  | [], h => absurd h (by simp)
  | (k, c) :: rest, h => by
    by_cases hv : c.value = m
    · refine ⟨⟨0, Nat.succ_pos _⟩, ?_, hv, ?_⟩
      · simp [find_first_max, hv]
      · intro j hj
        exact absurd hj (by simp)
    · have hrest : ∃ kc ∈ rest, kc.2.value = m := by
        rcases h with ⟨kc, hmem, hval⟩
        rcases List.mem_cons.mp hmem with rfl | hmem2
        · exact absurd hval hv
        · exact ⟨kc, hmem2, hval⟩
      rcases find_first_max_spec m rest hrest with ⟨i, hfind, hval, hbefore⟩
      refine ⟨⟨i.val + 1, by simp [i.isLt]⟩, ?_, ?_, ?_⟩
      · simpa [find_first_max, hv] using hfind
      · simpa using hval
      · intro j hj
        match j with
        | ⟨0, _⟩ => simpa using hv
        | ⟨jj + 1, hlt⟩ =>
            simpa using hbefore ⟨jj, by simpa using hlt⟩ (by simpa using hj)

/-- `_set_controlling_load` on a non-empty combination list picks the
first entry attaining the maximum value. -/
theorem set_controlling_load_spec (combos : List (String × Combo))
    (hne : combos ≠ []) :
    ∃ i : Fin combos.length,
      set_controlling_load combos =
        some ⟨(combos.get i).1, (combos.get i).2.value, "kip/ft"⟩ ∧
      (∀ j : Fin combos.length,
        (combos.get j).2.value ≤ (combos.get i).2.value) ∧
      ∀ j : Fin combos.length, (j : ℕ) < (i : ℕ) →
        (combos.get j).2.value < (combos.get i).2.value := by
  obtain ⟨kc0, rest, rfl⟩ : ∃ kc0 rest, combos = kc0 :: rest := by
    cases combos with
    | nil => exact absurd rfl hne
    | cons a l => exact ⟨a, l, rfl⟩
  have hmap : (kc0 :: rest).map (fun kc => kc.2.value) =
      kc0.2.value :: rest.map (fun kc => kc.2.value) := by simp
  set m := (rest.map fun kc => kc.2.value).foldl max kc0.2.value with hm
  have hscl : set_controlling_load (kc0 :: rest) =
      find_first_max m (kc0 :: rest) := by
    unfold set_controlling_load
    rw [hmap]
  have hmem : ∃ kc ∈ kc0 :: rest, kc.2.value = m := by
    rcases foldl_max_mem kc0.2.value (rest.map fun kc => kc.2.value) with h | h
    · exact ⟨kc0, by simp, h.symm⟩
    · rcases List.mem_map.mp h with ⟨kc, hkc, hval⟩
      exact ⟨kc, List.mem_cons_of_mem _ hkc, hval⟩
  have hmax : ∀ j : Fin (kc0 :: rest).length, ((kc0 :: rest).get j).2.value ≤ m := by
    intro j
    have hjmem : ((kc0 :: rest).get j) ∈ kc0 :: rest :=
      List.mem_iff_get.mpr ⟨j, rfl⟩
    rcases List.mem_cons.mp hjmem with heq | hmem2
    · rw [heq]
      exact foldl_max_le_self _ _
    · exact le_foldl_max _ _ (List.mem_map_of_mem _ hmem2)
  rcases find_first_max_spec m (kc0 :: rest) hmem with ⟨i, hfind, hvali, hbefore⟩
  refine ⟨i, ?_, ?_, ?_⟩
  · rw [hscl, hfind, hvali]
  · intro j
    rw [hvali]
    exact hmax j
  · intro j hj
    rw [hvali]
    exact lt_of_le_of_ne (hmax j) (hbefore j hj)

/-- Whatever the branch outcomes, the combination list built by
`design` starts with the unconditional U1 entry. -/
theorem build_combinations_ne_nil {D : ℚ} {L Lr S R W E : Option ℚ}
    {cs : List (String × Combo)}
    (h : build_combinations D L Lr S R W E = .ok cs) : cs ≠ [] := by
  unfold build_combinations at h
  by_cases h3 : py_any [Lr, S, R] = true
  · rw [if_pos h3] at h
    cases hp : py_max (filter_truthy [Lr, S, R]) with
    | error e => simp [hp, Bind.bind, Except.bind] at h
    | ok primary =>
      cases hs : py_max (filter_truthy [L, half_if_truthy W]) with
      | error e => simp [hp, hs, Bind.bind, Except.bind] at h
      | ok secondary =>
        simp only [hp, hs, Bind.bind, Except.bind, pure, Except.pure,
          Except.ok.injEq] at h
        rw [← h]
        simp
  · rw [if_neg h3] at h
    simp only [Bind.bind, Except.bind, pure, Except.pure, Except.ok.injEq] at h
    rw [← h]
    simp

/-- Inversion of a successful `LoadAnalysis.design` call: the result
record carries a non-empty combination list and its controlling load is
computed from it by `_set_controlling_load`. -/
theorem design_ok_inv {p : Params} {r : Results} (h : design p = .ok r) :
    r.load_combinations ≠ [] ∧
      r.controlling_load = set_controlling_load r.load_combinations := by
  unfold design at h
  cases hc : design_core p with
  | error e => rw [hc] at h; cases h
  | ok r0 =>
    rw [hc] at h
    cases h
    unfold design_core at hc
    cases hv : validate_inputs p with
    | error e => simp [hv, Bind.bind, Except.bind] at hc
    | ok D =>
      cases hb : build_combinations D p.live_load p.roof_live_load
          p.snow_load p.rain_load p.wind_load p.seismic_load with
      | error e => simp [hv, hb, Bind.bind, Except.bind] at hc
      | ok cs =>
        simp only [hv, hb, Bind.bind, Except.bind, pure, Except.pure,
          Except.ok.injEq] at hc
        rw [← hc]
        exact ⟨build_combinations_ne_nil hb, rfl⟩

end LoadAnalysis

/-- C1 (counterexample): at `span_length = 48` the design returns
`depth = 4` and `width = 4`, and `4` is NOT within the claimed band
`[depth/2, 2*depth/3] = [2, 8/3]`: the upper bound fails, so the claim
that the width always lies within `[depth/2, 2·depth/3]` is false. -/
theorem C1_counterexample :
    ((PreliminarySizing.design ⟨some 48⟩).map fun r =>
      decide ((r.final_dimensions.width : ℚ) ≤
        2 * (r.final_dimensions.depth : ℚ) / 3)) = .ok false := by
  decide

/-- C2 (code evaluation at the failing input): with `num_points` omitted,
`StructuralAnalysis.design` echoes `num_points = 21` in its `inputs` but
builds all three diagram series with 10 entries, not 21 — the body uses
`params.get("num_points", 10)` while the docstring and the `inputs` echo
say the default is 21. -/
theorem C2_default_num_points_bug :
    ((StructuralAnalysis.design
        { span_length := some 20, factored_load := some 2.5 }).map fun r =>
      (r.inputs.num_points, r.diagrams.x_coordinates.length,
        r.diagrams.shear_values.length, r.diagrams.moment_values.length)) =
      .ok (21, 10, 10, 10) := by
  decide

/-- C3 (code evaluation at the failing input): with a dead load and a
snow load but neither a live load nor a wind load, the U3 block's
`max(filter(None, [L, 0.5*W if W else None]))` has an empty candidate
pool and no `default`, so `design` fails with a `DesignError` wrapping
the `ValueError` instead of including U3 with secondary term 0. -/
theorem C3_u3_empty_max_bug :
    LoadAnalysis.design { dead_load := some 1, snow_load := some 2 } =
      .error ⟨"load_analysis", "max() arg is an empty sequence"⟩ := by
  decide

/-- C4: on `{dead_load: 2.5, live_load: 1.8, wind_load: 4.2}` the
computed combinations are exactly U1, U2, U4, U6 (in insertion order)
and the controlling load is U4 with value 9.0 kip/ft. -/
theorem C4_example_combinations :
    ((LoadAnalysis.design
        { dead_load := some 2.5, live_load := some 1.8,
          wind_load := some 4.2 }).map fun r =>
      (r.load_combinations.map Prod.fst, r.controlling_load)) =
      .ok (["U1", "U2", "U4", "U6"],
        some { combination := "U4", value := 9, units := "kip/ft" }) := by
  decide

/-- C7 (code evaluation at the failing input): on
`{span_length: 20, factored_load: 2.5}` the reactions, maximum shear and
maximum moment equal 25, 25 and 125, and the diagram series start at
`x = 0` with `shear = 25` and end at `x = 20` with `shear = -25`; but
with the actual default `num_points = 10` the stations step by `20/9 ft`
and NO sample falls at midspan `x = 10`, so no diagram entry carries the
claimed moment `Mmax = 125`. -/
theorem C7_example_analysis_bug :
    ((StructuralAnalysis.design
        { span_length := some 20, factored_load := some 2.5 }).map fun r =>
      (r.reactions.Ra, r.reactions.Rb,
        r.maximum_values.shear.value, r.maximum_values.moment.value)) =
      .ok (25, 25, 25, 125) ∧
    ((StructuralAnalysis.design
        { span_length := some 20, factored_load := some 2.5 }).map fun r =>
      (r.diagrams.x_coordinates.head?, r.diagrams.shear_values.head?,
        r.diagrams.x_coordinates.getLast?, r.diagrams.shear_values.getLast?)) =
      .ok (some 0, some 25, some 20, some (-25)) ∧
    ((StructuralAnalysis.design
        { span_length := some 20, factored_load := some 2.5 }).map fun r =>
      (decide ((10 : ℚ) ∈ r.diagrams.x_coordinates),
        decide ((125 : ℚ) ∈ r.diagrams.moment_values))) =
      .ok (false, false) := by
  refine ⟨by decide, by decide, by decide⟩

/-- C9: `LoadAnalysis.verify` and `StructuralAnalysis.verify` return the
`status = "not_implemented"` placeholder on every input, and
`check_requirements` of all three steps returns `passed = true` on every
input; all five are total functions (they never raise). -/
theorem C9_placeholders (pl : LoadAnalysis.Params)
    (ps : StructuralAnalysis.Params) (rl : LoadAnalysis.Results)
    (rs : StructuralAnalysis.Results) (rp : PreliminarySizing.Results) :
    (LoadAnalysis.verify pl).status = "not_implemented" ∧
    (StructuralAnalysis.verify ps).status = "not_implemented" ∧
    (LoadAnalysis.check_requirements rl).passed = true ∧
    (StructuralAnalysis.check_requirements rs).passed = true ∧
    (PreliminarySizing.check_requirements rp).passed = true := by
  exact ⟨rfl, rfl, rfl, rfl, rfl⟩

/-- The two rounding rules coincide: "take the ceiling; if the ceiling
is odd, add 1" is exactly `_round_to_even`. -/
theorem spec_round_up_even_eq (q : ℚ) :
    spec_round_up_even q = PreliminarySizing.round_to_even q := by
  unfold spec_round_up_even PreliminarySizing.round_to_even
  dsimp only
  simp only [Int.odd_iff]
  split_ifs with h1 h2 h3 <;> omega

/-- C1 (amended): for every positive `span_length`, `design` returns an
even integer depth at least `span/16` and an even integer width lying
within `[depth/2, round_up_even(2*depth/3)]` inclusive — the upper end
of the claimed band must be the rounded bound the code clamps to, not
the raw `2*depth/3` (see the counterexample at span 48). -/
theorem C1_amended (span : ℚ) (h : 0 < span) :
    ∃ r, PreliminarySizing.design ⟨some span⟩ = .ok r ∧
      Even r.final_dimensions.depth ∧
      span / 16 ≤ (r.final_dimensions.depth : ℚ) ∧
      Even r.final_dimensions.width ∧
      (r.final_dimensions.depth : ℚ) / 2 ≤ (r.final_dimensions.width : ℚ) ∧
      r.final_dimensions.width ≤
        PreliminarySizing.round_to_even (2 * (r.final_dimensions.depth : ℚ) / 3) := by
  refine ⟨_, PreliminarySizing.design_eq_ok h, ?_, ?_, ?_, ?_, ?_⟩ <;>
    dsimp only [PreliminarySizing.calculate_min_depth,
      PreliminarySizing.calculate_width]
  · exact PreliminarySizing.even_round_to_even _
  · have heq : span * PreliminarySizing.min_depth_factor = span / 16 := by
      unfold PreliminarySizing.min_depth_factor
      ring
    rw [← heq]
    exact PreliminarySizing.le_round_to_even _
  · exact PreliminarySizing.even_min
      (PreliminarySizing.even_max (PreliminarySizing.even_round_to_even _)
        (PreliminarySizing.even_round_to_even _))
      (PreliminarySizing.even_round_to_even _)
  · set d := PreliminarySizing.round_to_even
      (span * PreliminarySizing.min_depth_factor) with hd
    have hdpos : 0 < d := PreliminarySizing.round_to_even_pos (by
      unfold PreliminarySizing.min_depth_factor
      positivity)
    have hband : (d : ℚ) / 2 ≤ 2 * (d : ℚ) / 3 := by
      have : (0 : ℚ) < d := by exact_mod_cast hdpos
      linarith
    have hmono : PreliminarySizing.round_to_even ((d : ℚ) / 2) ≤
        PreliminarySizing.round_to_even (2 * (d : ℚ) / 3) :=
      PreliminarySizing.round_to_even_mono hband
    have hmin : PreliminarySizing.round_to_even ((d : ℚ) / 2) ≤
        min (max (PreliminarySizing.round_to_even (((d : ℚ) / 2 + 2 * (d : ℚ) / 3) / 2))
          (PreliminarySizing.round_to_even ((d : ℚ) / 2)))
          (PreliminarySizing.round_to_even (2 * (d : ℚ) / 3)) :=
      le_min (le_max_right _ _) hmono
    refine le_trans (PreliminarySizing.le_round_to_even ((d : ℚ) / 2)) ?_
    exact_mod_cast hmin
  · exact min_le_right _ _

/-- C5: for every positive `span_length`, the returned width is exactly
the spec's rule: round the midpoint of `[h/2, 2h/3]` up to the nearest
even integer (ceiling, plus 1 if odd) and clamp it into
`[round_up_even(h/2), round_up_even(2h/3)]`. -/
theorem C5_width_rule (span : ℚ) (h : 0 < span) :
    ∃ r, PreliminarySizing.design ⟨some span⟩ = .ok r ∧
      r.final_dimensions.width = spec_width r.final_dimensions.depth := by
  refine ⟨_, PreliminarySizing.design_eq_ok h, ?_⟩
  dsimp only [PreliminarySizing.calculate_min_depth,
    PreliminarySizing.calculate_width, spec_width]
  set d := PreliminarySizing.round_to_even
    (span * PreliminarySizing.min_depth_factor) with hd
  have hdpos : 0 < d := PreliminarySizing.round_to_even_pos (by
    unfold PreliminarySizing.min_depth_factor
    positivity)
  have hband : (d : ℚ) / 2 ≤ 2 * (d : ℚ) / 3 := by
    have : (0 : ℚ) < d := by exact_mod_cast hdpos
    linarith
  have hmono : PreliminarySizing.round_to_even ((d : ℚ) / 2) ≤
      PreliminarySizing.round_to_even (2 * (d : ℚ) / 3) :=
    PreliminarySizing.round_to_even_mono hband
  rw [spec_round_up_even_eq, spec_round_up_even_eq, spec_round_up_even_eq,
    min_max_distrib_right, min_eq_left hmono, max_comm]

/-- C6: whenever `LoadAnalysis.design` succeeds, the reported
controlling load is the combination with the maximum numeric value, and
among equal maxima the entry earliest in insertion order (U1 before U2
before ... before U7) wins: every earlier entry is strictly smaller. -/
theorem C6_controlling_first_max (p : LoadAnalysis.Params)
    (hok : ∃ r, LoadAnalysis.design p = .ok r) :
    ∃ r, LoadAnalysis.design p = .ok r ∧
      ∃ i : Fin r.load_combinations.length,
        r.controlling_load = some ⟨(r.load_combinations.get i).1,
          (r.load_combinations.get i).2.value, "kip/ft"⟩ ∧
        (∀ j : Fin r.load_combinations.length,
          (r.load_combinations.get j).2.value ≤
            (r.load_combinations.get i).2.value) ∧
        ∀ j : Fin r.load_combinations.length, (j : ℕ) < (i : ℕ) →
          (r.load_combinations.get j).2.value <
            (r.load_combinations.get i).2.value := by
  obtain ⟨r, hr⟩ := hok
  obtain ⟨hne, hctl⟩ := LoadAnalysis.design_ok_inv hr
  obtain ⟨i, hset, hle, hlt⟩ := LoadAnalysis.set_controlling_load_spec _ hne
  exact ⟨r, hr, i, by rw [hctl, hset], hle, hlt⟩

/-- Witness for C6 at the worked example of the source's `__main__`
block. -/
theorem C6_controlling_first_max_witness :
    ∃ r, LoadAnalysis.design
        { dead_load := some 2.5, live_load := some 1.8,
          wind_load := some 4.2 } = .ok r ∧
      ∃ i : Fin r.load_combinations.length,
        r.controlling_load = some ⟨(r.load_combinations.get i).1,
          (r.load_combinations.get i).2.value, "kip/ft"⟩ ∧
        (∀ j : Fin r.load_combinations.length,
          (r.load_combinations.get j).2.value ≤
            (r.load_combinations.get i).2.value) ∧
        ∀ j : Fin r.load_combinations.length, (j : ℕ) < (i : ℕ) →
          (r.load_combinations.get j).2.value <
            (r.load_combinations.get i).2.value :=
  C6_controlling_first_max _ ⟨_, rfl⟩

/-- C8: omitting a required parameter makes each step's `design` fail
with the `InputError` naming that parameter, wrapped at the top of
`design` into a `DesignError` tagged with the step's name whose message
is `str` of the original error (so the original message is preserved as
a suffix); `PreliminarySizing.verify` analogously wraps into a
`VerificationError`. The `Except.error` outcome carries no result
record, so no partial result is returned. -/
theorem C8_missing_required_param :
    (∀ p : PreliminarySizing.Params, p.span_length = none →
      PreliminarySizing.design p =
        .error ⟨"preliminary_sizing",
          (PyExn.inputError "span_length" "Required for design mode").str⟩) ∧
    (∀ p : LoadAnalysis.Params, p.dead_load = none →
      LoadAnalysis.design p =
        .error ⟨"load_analysis",
          (PyExn.inputError "dead_load" "Required for load analysis").str⟩) ∧
    (∀ p : StructuralAnalysis.Params, p.span_length = none →
      StructuralAnalysis.design p =
        .error ⟨"structural_analysis",
          (PyExn.inputError "span_length" "Required for structural analysis").str⟩) ∧
    (∀ (p : StructuralAnalysis.Params) (s : ℚ), p.span_length = some s →
      0 < s → p.factored_load = none →
      StructuralAnalysis.design p =
        .error ⟨"structural_analysis",
          (PyExn.inputError "factored_load" "Required for structural analysis").str⟩) ∧
    (∀ p : PreliminarySizing.VerifyParams, p.span_length = none →
      PreliminarySizing.verify p =
        .error ⟨"preliminary_sizing",
          (PyExn.inputError "span_length" "Required for verification").str⟩) ∧
    (∀ parameter message : String,
      ∃ pre, (PyExn.inputError parameter message).str = pre ++ message) := by
  refine ⟨?_, ?_, ?_, ?_, ?_, ?_⟩
  · intro p hp
    obtain ⟨sl⟩ := p
    cases hp
    decide
  · intro p hp
    unfold LoadAnalysis.design LoadAnalysis.design_core
      LoadAnalysis.validate_inputs
    rw [hp]
    rfl
  · intro p hp
    unfold StructuralAnalysis.design StructuralAnalysis.design_core
      StructuralAnalysis.validate_inputs
    rw [hp]
    rfl
  · intro p s hs hpos hf
    unfold StructuralAnalysis.design StructuralAnalysis.design_core
      StructuralAnalysis.validate_inputs validate_numeric_positive
    rw [hs, hf]
    simp only [hpos.not_le, if_false, Bind.bind, Except.bind]
    rfl
  · intro p hp
    unfold PreliminarySizing.verify PreliminarySizing.verify_core
      PreliminarySizing.validate_verification_inputs
    rw [hp]
    rfl
  · intro parameter message
    exact ⟨"Invalid input parameter \x27" ++ parameter ++ "\x27: ", by
      simp [PyExn.str, String.append_assoc]⟩

/-- Witness for C8 at concrete parameter dicts with the required key
omitted. -/
theorem C8_missing_required_param_witness :
    PreliminarySizing.design ⟨none⟩ =
      .error ⟨"preliminary_sizing",
        (PyExn.inputError "span_length" "Required for design mode").str⟩ ∧
    LoadAnalysis.design { dead_load := none } =
      .error ⟨"load_analysis",
        (PyExn.inputError "dead_load" "Required for load analysis").str⟩ ∧
    StructuralAnalysis.design { span_length := none, factored_load := none } =
      .error ⟨"structural_analysis",
        (PyExn.inputError "span_length" "Required for structural analysis").str⟩ ∧
    StructuralAnalysis.design { span_length := some 20, factored_load := none } =
      .error ⟨"structural_analysis",
        (PyExn.inputError "factored_load" "Required for structural analysis").str⟩ ∧
    PreliminarySizing.verify ⟨none, some 20, some 10⟩ =
      .error ⟨"preliminary_sizing",
        (PyExn.inputError "span_length" "Required for verification").str⟩ ∧
    ∃ pre, (PyExn.inputError "span_length" "Required for design mode").str =
      pre ++ "Required for design mode" :=
  ⟨C8_missing_required_param.1 ⟨none⟩ rfl,
    C8_missing_required_param.2.1 { dead_load := none } rfl,
    C8_missing_required_param.2.2.1 _ rfl,
    C8_missing_required_param.2.2.2.1 _ 20 rfl (by norm_num) rfl,
    C8_missing_required_param.2.2.2.2.1 _ rfl,
    C8_missing_required_param.2.2.2.2.2 _ _⟩

/-- C10: presence is tested differently across combinations. Supplying
all six optional loads as `0` makes `any([Lr, S, R])` falsy, so U3 is
omitted even though roof/snow/rain keys are present, while the
`is not None` tests still include U2, U4, U5, U6 and U7 for the
zero-valued live, wind and seismic loads; and a truthy (non-zero)
`roof_live_load` does trigger U3.  Zero values are also dropped from the
`max` candidate pools by `filter(None, ...)`, leaving the empty-pool
default `0`. -/
theorem C10_presence_tests (D v l : ℚ) (hD : 0 < D) (hv : v ≠ 0) (hl : l ≠ 0) :
    ((LoadAnalysis.design
        { dead_load := some D, live_load := some 0, roof_live_load := some 0,
          snow_load := some 0, rain_load := some 0, wind_load := some 0,
          seismic_load := some 0 }).map fun r =>
      r.load_combinations.map Prod.fst) =
      .ok ["U1", "U2", "U4", "U5", "U6", "U7"] ∧
    ((LoadAnalysis.design
        { dead_load := some D, live_load := some l,
          roof_live_load := some v }).map fun r =>
      r.load_combinations.map Prod.fst) =
      .ok ["U1", "U2", "U3"] ∧
    LoadAnalysis.filter_truthy [some 0, some 0, some 0] = [] ∧
    LoadAnalysis.py_max_default
      (LoadAnalysis.filter_truthy [some 0, some 0, some 0]) 0 = 0 := by
  refine ⟨?_, ?_, by decide, by decide⟩
  · unfold LoadAnalysis.design LoadAnalysis.design_core
      LoadAnalysis.validate_inputs validate_numeric_positive
      LoadAnalysis.build_combinations
    simp [hD.not_le, LoadAnalysis.py_any, LoadAnalysis.truthy,
      LoadAnalysis.filter_truthy, LoadAnalysis.py_max_default,
      LoadAnalysis.py_max, LoadAnalysis.py_or_zero,
      LoadAnalysis.half_if_truthy, Bind.bind, Except.bind, pure,
      Except.pure, Except.map]
  · unfold LoadAnalysis.design LoadAnalysis.design_core
      LoadAnalysis.validate_inputs validate_numeric_positive
      LoadAnalysis.build_combinations
    simp [hD.not_le, hv, hl, LoadAnalysis.py_any, LoadAnalysis.truthy,
      LoadAnalysis.filter_truthy, LoadAnalysis.py_max_default,
      LoadAnalysis.py_max, LoadAnalysis.py_or_zero,
      LoadAnalysis.half_if_truthy, Bind.bind, Except.bind, pure,
      Except.pure, Except.map]

/-- Witness for C10 at `D = 1`, `v = 1`, `l = 1`. -/
theorem C10_presence_tests_witness :
    ((LoadAnalysis.design
        { dead_load := some 1, live_load := some 0, roof_live_load := some 0,
          snow_load := some 0, rain_load := some 0, wind_load := some 0,
          seismic_load := some 0 }).map fun r =>
      r.load_combinations.map Prod.fst) =
      .ok ["U1", "U2", "U4", "U5", "U6", "U7"] ∧
    ((LoadAnalysis.design
        { dead_load := some 1, live_load := some 1,
          roof_live_load := some 1 }).map fun r =>
      r.load_combinations.map Prod.fst) =
      .ok ["U1", "U2", "U3"] ∧
    LoadAnalysis.filter_truthy [some 0, some 0, some 0] = [] ∧
    LoadAnalysis.py_max_default
      (LoadAnalysis.filter_truthy [some 0, some 0, some 0]) 0 = 0 :=
  C10_presence_tests 1 1 1 (by norm_num) (by norm_num) (by norm_num)

/-- Witness for the amended C1 at `span_length = 48` (the span of the
counterexample: the amended band does contain the returned width). -/
theorem C1_amended_witness :
    ∃ r, PreliminarySizing.design ⟨some 48⟩ = .ok r ∧
      Even r.final_dimensions.depth ∧
      (48 : ℚ) / 16 ≤ (r.final_dimensions.depth : ℚ) ∧
      Even r.final_dimensions.width ∧
      (r.final_dimensions.depth : ℚ) / 2 ≤ (r.final_dimensions.width : ℚ) ∧
      r.final_dimensions.width ≤
        PreliminarySizing.round_to_even (2 * (r.final_dimensions.depth : ℚ) / 3) :=
  C1_amended 48 (by norm_num)

/-- Witness for C5 at `span_length = 240` (the worked example of the
source's `__main__` block, giving depth 16 and width 10). -/
theorem C5_width_rule_witness :
    ∃ r, PreliminarySizing.design ⟨some 240⟩ = .ok r ∧
      r.final_dimensions.width = spec_width r.final_dimensions.depth :=
  C5_width_rule 240 (by norm_num)

end Embedding
